import Mathlib

/-!
# Verification of the nuko instance supervisor (src-tauri/src/instance.rs)

Shallow embedding of the process-supervisor core of the nuko server manager.
The OS environment (on-disk configuration store, process table, spawn results,
wall clock) is passed in explicitly; the two global registries (the command
channel map `stdin_map` and the per-instance log buffer map `logs_map`,
process-wide `Mutex<HashMap<..>>` in the source) are modelled as association
lists threaded through each operation.  A Rust `panic!` is modelled as the
distinguished `Outcome.panicked` result, distinct from a recoverable
`Result::Err` (`Outcome.err`); error strings reproduce the `format!` strings
of the source.  CPU usage (`f32` in the source) is modelled as `Rat`.
-/

namespace Nuko

/-- Result of invoking an operation: `ok` for `Ok(..)`, `err` for `Err(String)`,
`panicked` for a Rust `panic!` that unwinds out of the call. -/
inductive Outcome (α : Type) where
  | ok (a : α)
  | err (e : String)
  | panicked (msg : String)
deriving Repr, DecidableEq

/-- OS signal sent by `sysinfo::Process::kill_with`. -/
inductive Sig where
  | term
  | kill
deriving Repr, DecidableEq

/-- One entry of the process table (`sysinfo` process view):
pid, optional current working directory, cpu usage, memory. -/
structure OsProc where
  pid : Nat
  cwd : Option String
  cpu_usage : Rat
  memory : Nat
deriving Repr, DecidableEq

/-- Model of a `ChildStdin` handle: whether `writeln!(stdin, "stop")`
and `stdin.flush()` would succeed on it. -/
structure Chan where
  writeStopOk : Bool
  flushOk : Bool
deriving Repr, DecidableEq

/-- `models::JavaConfig`. -/
structure JavaConfig where
  min_memory : String
  max_memory : String
  java_path : Option String
  additional_args : List String
deriving Repr, DecidableEq

/-- `models::MetadataConfig`. -/
structure MetadataConfig where
  created_at : String
  last_played : Option String
  play_time_minutes : Nat
deriving Repr, DecidableEq

/-- `models::InstanceConfig`, the parsed `nuko.toml` of one instance. -/
structure InstanceConfig where
  id : String
  name : String
  software : String
  version : String
  loader : Option String
  custom_jar_path : Option String
  java : JavaConfig
  metadata : MetadataConfig
deriving Repr, DecidableEq

/-- `models::InstanceInfo`. -/
structure InstanceInfo where
  id : String
  name : String
  software : String
  version : String
  running : Bool
deriving Repr, DecidableEq

/-- `models::InstanceMetrics` (`cpu_usage : f32` modelled as `Rat`). -/
structure InstanceMetrics where
  time : String
  cpu_usage : Rat
  memory_usage : Nat
deriving Repr, DecidableEq

/-- The persistent side of the world: the data directory path, the parsed
`nuko.toml` configurations found under `instances/` in `read_dir` order,
and the set of directory paths that exist on disk. -/
structure Disk where
  dataDir : String
  configs : List InstanceConfig
  dirs : List String
deriving Repr, DecidableEq

/-- The two global registries of `instance.rs`: `get_stdin_map()` and
`get_logs_map()`, each a `Mutex<HashMap<String, _>>`. -/
structure SupState where
  stdinMap : List (String × Chan)
  logsMap : List (String × List String)
deriving Repr, DecidableEq

/-- Association-list lookup (`HashMap::get`). -/
def lookupA {α : Type} (m : List (String × α)) (k : String) : Option α :=
  (m.find? (fun p => p.1 == k)).map (fun p => p.2)

/-- Association-list removal (`HashMap::remove`, keyed effect only). -/
def removeA {α : Type} (m : List (String × α)) (k : String) : List (String × α) :=
  m.filter (fun p => !(p.1 == k))

/-- Association-list insert/overwrite (`HashMap::insert`). -/
def insertA {α : Type} (m : List (String × α)) (k : String) (v : α) :
    List (String × α) :=
  (k, v) :: removeA m k

/-- `data_dir.join("instances").join(name)`. -/
def instanceDir (d : Disk) (name : String) : String :=
  d.dataDir ++ "/instances/" ++ name

/-- `format!("Instance '{}' is not running", name)`. -/
def notRunningMsg (name : String) : String :=
  "Instance '" ++ name ++ "' is not running"

/-- `format!("Instance '{}' is already running", name)`. -/
def alreadyRunningMsg (name : String) : String :=
  "Instance '" ++ name ++ "' is already running"

/-- `format!("Instance '{}' does not exist", name)`. -/
def doesNotExistMsg (name : String) : String :=
  "Instance '" ++ name ++ "' does not exist"

/-- `format!("Instance with id {} not found", id)`. -/
def notFoundPanicMsg (id : String) : String :=
  "Instance with id " ++ id ++ " not found"

/-- `get_instance_by_id`: scans the instance directories in order and returns
the first configuration whose `id` matches; `panic!`s when none matches. -/
def get_instance_by_id (d : Disk) (id : String) : Outcome InstanceConfig :=
  match d.configs.find? (fun c => c.id == id) with
  | some c => Outcome.ok c
  | none => Outcome.panicked (notFoundPanicMsg id)

/-- The processes of a snapshot whose `cwd()` equals the given directory. -/
def matchingProcs (procs : List OsProc) (dir : String) : List OsProc :=
  procs.filter (fun p => p.cwd == some dir)

/-- Whether the graceful path of `stop_instance` succeeds: a command channel
is registered for `id` and both the `writeln!` of `"stop"` and the `flush`
succeed on it. -/
def sentStop (st : SupState) (id : String) : Bool :=
  match lookupA st.stdinMap id with
  | some c => c.writeStopOk && c.flushOk
  | none => false

/-- Output of `stop_instance` / `kill_instance`: the returned `Result`, the
updated registries, the `(pid, signal)` pairs sent, and the emitted events. -/
structure StopOut where
  res : Outcome Unit
  state : SupState
  signals : List (Nat × Sig)
  events : List String
deriving Repr, DecidableEq

/-- `stop_instance`: resolve the instance (panics when the id is unknown),
remove any registered command channel and attempt the graceful `"stop"` write
plus flush on it; when that did not succeed, send `Signal::Term` to every
process whose cwd equals the instance directory, failing with the
not-running error when none matched. -/
def stop_instance (d : Disk) (procs : List OsProc) (st : SupState)
    (id : String) : StopOut :=
  match get_instance_by_id d id with
  | Outcome.panicked m => ⟨Outcome.panicked m, st, [], []⟩
  | Outcome.err m => ⟨Outcome.err m, st, [], []⟩
  | Outcome.ok inst =>
    let dir := instanceDir d inst.name
    let st1 : SupState := { st with stdinMap := removeA st.stdinMap id }
    if sentStop st id then
      ⟨Outcome.ok (), st1, [], ["instances-updated"]⟩
    else
      let ms := matchingProcs procs dir
      let sigs := ms.map (fun p => (p.pid, Sig.term))
      if ms.isEmpty then
        ⟨Outcome.err (notRunningMsg inst.name), st1, sigs, []⟩
      else
        ⟨Outcome.ok (), st1, sigs, ["instances-updated"]⟩

/-- `kill_instance`: remove any command-channel registration first
(before resolving the instance, hence unconditionally), then resolve
(panics when the id is unknown) and send `Signal::Kill` to every process
whose cwd equals the instance directory, failing with the not-running
error when none matched. -/
def kill_instance (d : Disk) (procs : List OsProc) (st : SupState)
    (id : String) : StopOut :=
  let st1 : SupState := { st with stdinMap := removeA st.stdinMap id }
  match get_instance_by_id d id with
  | Outcome.panicked m => ⟨Outcome.panicked m, st1, [], []⟩
  | Outcome.err m => ⟨Outcome.err m, st1, [], []⟩
  | Outcome.ok inst =>
    let dir := instanceDir d inst.name
    let ms := matchingProcs procs dir
    let sigs := ms.map (fun p => (p.pid, Sig.kill))
    if ms.isEmpty then
      ⟨Outcome.err (notRunningMsg inst.name), st1, sigs, []⟩
    else
      ⟨Outcome.ok (), st1, sigs, ["instances-updated"]⟩

/-- The command eventually handed to the OS: program, working directory,
argument list. -/
structure LaunchCmd where
  program : String
  cwd : String
  args : List String
deriving Repr, DecidableEq

/-- Model of a spawned `Child`: the optional stdin handle and the optional
captured output streams, each a sequence of `lines()` read results
(`Except String String` models `io::Result<String>`). -/
structure Child where
  stdin : Option Chan
  stdout : Option (List (Except String String))
  stderr : Option (List (Except String String))

/-- The argument list built by `start_instance`: `-Xms`/`-Xmx` flags when the
memory strings are nonempty, then the stored additional arguments in order,
then `-jar server.jar nogui`. -/
def buildArgs (j : JavaConfig) : List String :=
  (if j.min_memory.isEmpty then [] else ["-Xms" ++ j.min_memory]) ++
  (if j.max_memory.isEmpty then [] else ["-Xmx" ++ j.max_memory]) ++
  j.additional_args ++ ["-jar", "server.jar", "nogui"]

/-- Output of `start_instance`: the returned `Result`, the updated
registries, the command passed to `spawn` when spawning was attempted,
and the emitted events. -/
structure StartOut where
  res : Outcome Unit
  state : SupState
  spawned : Option LaunchCmd
  events : List String

/-- `start_instance`: resolve the instance (panics when the id is unknown),
fail when the instance directory does not exist, fail with the
already-running error when any process's cwd equals the instance directory,
otherwise build the launch command and spawn (`spawn` models the OS);
on a successful spawn register the stdin handle, reset the log buffer to
empty, and detach the relay threads (modelled separately by `relayRace`). -/
def start_instance (d : Disk) (procs : List OsProc)
    (spawn : LaunchCmd → Except String Child) (st : SupState)
    (id : String) : StartOut :=
  match get_instance_by_id d id with
  | Outcome.panicked m => ⟨Outcome.panicked m, st, none, []⟩
  | Outcome.err m => ⟨Outcome.err m, st, none, []⟩
  | Outcome.ok inst =>
    let dir := instanceDir d inst.name
    if !(d.dirs.contains dir) then
      ⟨Outcome.err (doesNotExistMsg inst.name), st, none, []⟩
    else if !(matchingProcs procs dir).isEmpty then
      ⟨Outcome.err (alreadyRunningMsg inst.name), st, none, []⟩
    else
      let javaPath := inst.java.java_path.getD "java"
      let cmd : LaunchCmd := ⟨javaPath, dir, buildArgs inst.java⟩
      match spawn cmd with
      | Except.error e =>
        ⟨Outcome.err ("Failed to start Java process: " ++ e), st, some cmd, []⟩
      | Except.ok child =>
        let st1 : SupState :=
          match child.stdin with
          | some c => { st with stdinMap := insertA st.stdinMap id c }
          | none => st
        let st2 : SupState := { st1 with logsMap := insertA st1.logsMap id [] }
        match child.stdout with
        | none => ⟨Outcome.err "Failed to capture stdout", st2, some cmd, []⟩
        | some _ =>
          match child.stderr with
          | none => ⟨Outcome.err "Failed to capture stderr", st2, some cmd, []⟩
          | some _ => ⟨Outcome.ok (), st2, some cmd, ["instances-updated"]⟩

/-- The `for _ in 0..60` wait loop of `restart_instance`, time-indexed:
`snaps k` is the process table at the `k`-th refresh.  Returns
`(polls, sleeps)`: how many refresh-and-scan iterations ran and how many
500 ms sleeps were performed.  `i` is the index of the next refresh and
the second argument the remaining attempt budget. -/
def waitLoopAux (dir : String) (snaps : Nat → List OsProc) (i : Nat) :
    Nat → Nat × Nat
  | 0 => (i, i)
  | fuel + 1 =>
    if (matchingProcs (snaps i) dir).isEmpty then (i + 1, i)
    else waitLoopAux dir snaps (i + 1) fuel

/-- Output of `restart_instance`: additionally reports the number of wait
polls performed and the total milliseconds slept. -/
structure RestartOut where
  res : Outcome Unit
  state : SupState
  spawned : Option LaunchCmd
  polls : Nat
  sleepMs : Nat

/-- `restart_instance`: invoke `stop_instance` discarding its `Result` (a
panic still unwinds), re-resolve the instance, poll the process table up to
60 times at 500 ms until no process's cwd matches the instance directory,
then invoke `start_instance` on the next snapshot unconditionally.
`stopSnap` is the snapshot seen by the inner stop; `snaps` the refresh
sequence of the wait loop, whose next refresh (`snaps polls`) is the one
`start_instance` takes. -/
def restart_instance (d : Disk) (stopSnap : List OsProc)
    (snaps : Nat → List OsProc) (spawn : LaunchCmd → Except String Child)
    (st : SupState) (id : String) : RestartOut :=
  let s := stop_instance d stopSnap st id
  match s.res with
  | Outcome.panicked m => ⟨Outcome.panicked m, s.state, none, 0, 0⟩
  | _ =>
    match get_instance_by_id d id with
    | Outcome.panicked m => ⟨Outcome.panicked m, s.state, none, 0, 0⟩
    | Outcome.err m => ⟨Outcome.err m, s.state, none, 0, 0⟩
    | Outcome.ok inst =>
      let dir := instanceDir d inst.name
      let pr := waitLoopAux dir snaps 0 60
      let so := start_instance d (snaps pr.1) spawn s.state id
      ⟨so.res, so.state, so.spawned, pr.1, 500 * pr.2⟩

/-- `get_instance_metrics`: resolve the instance (panics when the id is
unknown), refresh the shared snapshot and accumulate cpu usage and memory
over the processes whose cwd equals the instance directory, in table order,
tagging the sample with the formatted wall-clock time (`clock`). -/
def get_instance_metrics (d : Disk) (procs : List OsProc) (clock : String)
    (id : String) : Outcome InstanceMetrics :=
  match get_instance_by_id d id with
  | Outcome.panicked m => Outcome.panicked m
  | Outcome.err m => Outcome.err m
  | Outcome.ok inst =>
    let dir := instanceDir d inst.name
    let cpu := procs.foldl
      (fun acc p => if p.cwd == some dir then acc + p.cpu_usage else acc) 0
    let mem := procs.foldl
      (fun acc p => if p.cwd == some dir then acc + p.memory else acc) 0
    Outcome.ok ⟨clock, cpu, mem⟩

/-- `get_instance_info`: resolve the instance (panics when the id is
unknown) and report it running iff some process's cwd equals the instance
directory. -/
def get_instance_info (d : Disk) (procs : List OsProc) (id : String) :
    Outcome InstanceInfo :=
  match get_instance_by_id d id with
  | Outcome.panicked m => Outcome.panicked m
  | Outcome.err m => Outcome.err m
  | Outcome.ok inst =>
    Outcome.ok ⟨inst.id, inst.name, inst.software, inst.version,
      procs.any (fun p => p.cwd == some (instanceDir d inst.name))⟩

/-- `get_instance_logs`: clone of the log buffer for `id`, or the empty
vector when no buffer exists; never an error. -/
def get_instance_logs (st : SupState) (id : String) :
    Outcome (List String) :=
  Outcome.ok ((lookupA st.logsMap id).getD [])

/-- One observable action of a relay thread on a decoded line. -/
inductive RelayAct where
  | appended (line : String)
  | emitted (line : String)
deriving Repr, DecidableEq

/-- One iteration of a relay thread's `for line in reader.lines()` body:
an `Err` read is skipped; an `Ok` line is appended to the instance's log
buffer under the lock when the buffer exists, then emitted as a per-line
event (the emit happens even when the buffer entry is absent). -/
def relayStep (id : String) (logs : List (String × List String))
    (line : Except String String) :
    List (String × List String) × List RelayAct :=
  match line with
  | Except.error _ => (logs, [])
  | Except.ok l =>
    match lookupA logs id with
    | some cur => (insertA logs id (cur ++ [l]),
        [RelayAct.appended l, RelayAct.emitted l])
    | none => (logs, [RelayAct.emitted l])

/-- Interleaved execution of the stdout relay and the stderr relay on the
shared log-buffer map: `sched` picks which thread performs its next
`lines()` iteration (`true` = stdout); a pick for an exhausted stream is a
no-op.  An unfinished schedule models an observation mid-run. -/
def relayRace (id : String) : List Bool → List (String × List String) →
    List (Except String String) → List (Except String String) →
    List (String × List String)
  | [], logs, _, _ => logs
  | true :: s, logs, [], errS => relayRace id s logs [] errS
  | true :: s, logs, x :: xs, errS =>
    relayRace id s (relayStep id logs x).1 xs errS
  | false :: s, logs, outS, [] => relayRace id s logs outS []
  | false :: s, logs, outS, y :: ys =>
    relayRace id s (relayStep id logs y).1 outS ys

/-- The successfully decoded lines of a stream, in order
(the `Ok` results of `lines()`). -/
def okLines : List (Except String String) → List String
  | [] => []
  | Except.ok l :: r => l :: okLines r
  | Except.error _ :: r => okLines r

/-- `zs` is an order-preserving interleaving of `xs` and `ys`. -/
inductive Interleaving : List String → List String → List String → Prop where
  | nil : Interleaving [] [] []
  | left {x xs ys zs} : Interleaving xs ys zs →
      Interleaving (x :: xs) ys (x :: zs)
  | right {y xs ys zs} : Interleaving xs ys zs →
      Interleaving xs (y :: ys) (y :: zs)

/-! ## Helper lemmas -/

theorem lookupA_insertA_self {α : Type} (m : List (String × α)) (k : String)
    (v : α) : lookupA (insertA m k v) k = some v := by
  simp [lookupA, insertA]

theorem foldl_filter_sum {α M : Type} [AddCommMonoid M] (P : α → Bool)
    (f : α → M) :
    ∀ (l : List α) (a : M),
      l.foldl (fun acc p => if P p then acc + f p else acc) a =
        a + ((l.filter P).map f).sum := by
  intro l
  induction l with
  | nil => intro a; simp
  | cons x xs ih =>
    intro a
    by_cases h : P x = true
    · simp [h, ih, add_assoc]
    · simp [h, ih]

/-! ## Claims -/

/-- C10: for every identifier, including never-started or unconfigured ones,
`get_instance_logs` always succeeds, returning the empty sequence when no
log buffer exists for the identifier, and never returns an error. -/
theorem get_logs_always_ok (st : SupState) (id : String) :
    ∃ ls, get_instance_logs st id = Outcome.ok ls
      ∧ (∀ e, get_instance_logs st id ≠ Outcome.err e)
      ∧ (∀ m, get_instance_logs st id ≠ Outcome.panicked m)
      ∧ (lookupA st.logsMap id = none → ls = []) := by
  refine ⟨(lookupA st.logsMap id).getD [], rfl, ?_, ?_, ?_⟩
  · intro e h
    simp [get_instance_logs] at h
  · intro m h
    simp [get_instance_logs] at h
  · intro h
    simp [h]

/-- C1 counterexample: on a disk with no configuration for id `gone`,
`start_instance` panics (aborts) with the not-found panic message instead of
returning a recoverable `Err` of any kind. -/
theorem start_unknown_id_panics :
    (start_instance ⟨"/data", [], []⟩ []
        (fun _ => Except.error "e") ⟨[], []⟩ "gone").res =
      Outcome.panicked "Instance with id gone not found"
    ∧ ∀ e, (start_instance ⟨"/data", [], []⟩ []
        (fun _ => Except.error "e") ⟨[], []⟩ "gone").res ≠ Outcome.err e := by
  constructor
  · rfl
  · intro e h
    simp [start_instance, get_instance_by_id, notFoundPanicMsg] at h

/-- C1 amended: for every instance identifier with no corresponding
configuration on disk, each supervisor operation (start, stop, kill,
restart, info, metrics) panics in the identifier-resolution helper with the
not-found message — aborting the call — rather than returning a recoverable
NotFound-style error. -/
theorem unknown_id_all_ops_panic (d : Disk) (procs stopSnap : List OsProc)
    (snaps : Nat → List OsProc) (spawn : LaunchCmd → Except String Child)
    (st : SupState) (clock id : String)
    (h : d.configs.find? (fun c => c.id == id) = none) :
    (start_instance d procs spawn st id).res =
      Outcome.panicked (notFoundPanicMsg id)
    ∧ (stop_instance d procs st id).res =
      Outcome.panicked (notFoundPanicMsg id)
    ∧ (kill_instance d procs st id).res =
      Outcome.panicked (notFoundPanicMsg id)
    ∧ (restart_instance d stopSnap snaps spawn st id).res =
      Outcome.panicked (notFoundPanicMsg id)
    ∧ get_instance_metrics d procs clock id =
      Outcome.panicked (notFoundPanicMsg id)
    ∧ get_instance_info d procs id =
      Outcome.panicked (notFoundPanicMsg id) := by
  have hl : get_instance_by_id d id =
      Outcome.panicked (notFoundPanicMsg id) := by
    simp [get_instance_by_id, h]
  refine ⟨?_, ?_, ?_, ?_, ?_, ?_⟩
  · simp [start_instance, hl]
  · simp [stop_instance, hl]
  · simp [kill_instance, hl]
  · simp [restart_instance, stop_instance, hl]
  · simp [get_instance_metrics, hl]
  · simp [get_instance_info, hl]

/-- C1 witness: the amended claim instantiated on an empty disk. -/
theorem unknown_id_all_ops_panic_witness :
    (⟨"/data", [], []⟩ : Disk).configs.find? (fun c => c.id == "gone") = none
    ∧ ((start_instance ⟨"/data", [], []⟩ [] (fun _ => Except.error "e")
          ⟨[], []⟩ "gone").res = Outcome.panicked (notFoundPanicMsg "gone")
      ∧ (stop_instance ⟨"/data", [], []⟩ [] ⟨[], []⟩ "gone").res =
          Outcome.panicked (notFoundPanicMsg "gone")
      ∧ (kill_instance ⟨"/data", [], []⟩ [] ⟨[], []⟩ "gone").res =
          Outcome.panicked (notFoundPanicMsg "gone")
      ∧ (restart_instance ⟨"/data", [], []⟩ [] (fun _ => [])
          (fun _ => Except.error "e") ⟨[], []⟩ "gone").res =
          Outcome.panicked (notFoundPanicMsg "gone")
      ∧ get_instance_metrics ⟨"/data", [], []⟩ [] "00:00:00" "gone" =
          Outcome.panicked (notFoundPanicMsg "gone")
      ∧ get_instance_info ⟨"/data", [], []⟩ [] "gone" =
          Outcome.panicked (notFoundPanicMsg "gone")) :=
  ⟨rfl, unknown_id_all_ops_panic ⟨"/data", [], []⟩ [] [] (fun _ => [])
    (fun _ => Except.error "e") ⟨[], []⟩ "00:00:00" "gone" rfl⟩

/-- C2: for a configured identifier, stop always removes the command-channel
registration; when the graceful `"stop"` write plus flush succeeds the call
returns success with no signal sent; otherwise it sends `Term` (not `Kill`)
to every process whose cwd equals the instance directory, and errs with the
not-running message iff that scan matched nothing. -/
theorem stop_graceful_then_signal (d : Disk) (procs : List OsProc)
    (st : SupState) (id : String) (inst : InstanceConfig)
    (h : get_instance_by_id d id = Outcome.ok inst) :
    (stop_instance d procs st id).state.stdinMap = removeA st.stdinMap id
    ∧ (stop_instance d procs st id).state.logsMap = st.logsMap
    ∧ (sentStop st id = true →
        (stop_instance d procs st id).res = Outcome.ok ()
        ∧ (stop_instance d procs st id).signals = [])
    ∧ (sentStop st id = false →
        (stop_instance d procs st id).signals =
          (matchingProcs procs (instanceDir d inst.name)).map
            (fun p => (p.pid, Sig.term))
        ∧ ((stop_instance d procs st id).res =
            Outcome.err (notRunningMsg inst.name)
          ↔ matchingProcs procs (instanceDir d inst.name) = [])
        ∧ (matchingProcs procs (instanceDir d inst.name) ≠ [] →
            (stop_instance d procs st id).res = Outcome.ok ())) := by
  unfold stop_instance
  rw [h]
  by_cases hs : sentStop st id
  · simp [hs]
  · simp only [hs, Bool.false_eq_true, if_false]
    by_cases hm : matchingProcs procs (instanceDir d inst.name) = []
    · simp [hm]
    · simp [hm, List.isEmpty_iff]

theorem start_blocked_when_running (d : Disk) (procs : List OsProc)
    (spawn : LaunchCmd → Except String Child) (st : SupState) (id : String)
    (inst : InstanceConfig)
    (h : get_instance_by_id d id = Outcome.ok inst)
    (hdir : d.dirs.contains (instanceDir d inst.name) = true)
    (hm : matchingProcs procs (instanceDir d inst.name) ≠ []) :
    start_instance d procs spawn st id =
      ⟨Outcome.err (alreadyRunningMsg inst.name), st, none, []⟩ := by
  have hmem : instanceDir d inst.name ∈ d.dirs := by simpa using hdir
  unfold start_instance
  rw [h]
  simp [hmem, List.isEmpty_iff, hm]

/-- C3: for a configured instance whose directory exists, when the refreshed
process table holds any process with cwd equal to the instance directory,
start returns the already-running error and leaves both registries
untouched, spawning nothing. -/
theorem start_already_running (d : Disk) (procs : List OsProc)
    (spawn : LaunchCmd → Except String Child) (st : SupState) (id : String)
    (inst : InstanceConfig)
    (h : get_instance_by_id d id = Outcome.ok inst)
    (hdir : d.dirs.contains (instanceDir d inst.name) = true)
    (hm : matchingProcs procs (instanceDir d inst.name) ≠ []) :
    start_instance d procs spawn st id =
      ⟨Outcome.err (alreadyRunningMsg inst.name), st, none, []⟩ :=
  start_blocked_when_running d procs spawn st id inst h hdir hm

theorem stop_no_panic (d : Disk) (procs : List OsProc) (st : SupState)
    (id : String) (inst : InstanceConfig)
    (h : get_instance_by_id d id = Outcome.ok inst) (m : String) :
    (stop_instance d procs st id).res ≠ Outcome.panicked m := by
  unfold stop_instance
  rw [h]
  by_cases hs : sentStop st id
  · simp [hs]
  · by_cases hm : (matchingProcs procs (instanceDir d inst.name)).isEmpty
    · simp [hs, hm]
    · simp [hs, hm]

theorem restart_char (d : Disk) (stopSnap : List OsProc)
    (snaps : Nat → List OsProc) (spawn : LaunchCmd → Except String Child)
    (st : SupState) (id : String) (inst : InstanceConfig)
    (h : get_instance_by_id d id = Outcome.ok inst) :
    restart_instance d stopSnap snaps spawn st id =
      ⟨(start_instance d
          (snaps (waitLoopAux (instanceDir d inst.name) snaps 0 60).1) spawn
          (stop_instance d stopSnap st id).state id).res,
        (start_instance d
          (snaps (waitLoopAux (instanceDir d inst.name) snaps 0 60).1) spawn
          (stop_instance d stopSnap st id).state id).state,
        (start_instance d
          (snaps (waitLoopAux (instanceDir d inst.name) snaps 0 60).1) spawn
          (stop_instance d stopSnap st id).state id).spawned,
        (waitLoopAux (instanceDir d inst.name) snaps 0 60).1,
        500 * (waitLoopAux (instanceDir d inst.name) snaps 0 60).2⟩ := by
  unfold restart_instance
  cases hres : (stop_instance d stopSnap st id).res with
  | panicked m => exact absurd hres (by simpa using stop_no_panic d stopSnap st id inst h m)
  | ok a => simp only [hres, h]
  | err e => simp only [hres, h]

theorem waitLoopAux_spec (dir : String) (snaps : Nat → List OsProc) :
    ∀ (fuel i : Nat),
      (waitLoopAux dir snaps i fuel).1 ≤ i + fuel
      ∧ ((waitLoopAux dir snaps i fuel).2 = (waitLoopAux dir snaps i fuel).1
        ∨ (waitLoopAux dir snaps i fuel).2 + 1 =
            (waitLoopAux dir snaps i fuel).1) := by
  intro fuel
  induction fuel with
  | zero =>
    intro i
    simp [waitLoopAux]
  | succ n ih =>
    intro i
    unfold waitLoopAux
    by_cases hc : (matchingProcs (snaps i) dir).isEmpty = true
    · rw [if_pos hc]
      exact ⟨by omega, Or.inr rfl⟩
    · rw [if_neg hc]
      have h1 := (ih (i + 1)).1
      exact ⟨by omega, (ih (i + 1)).2⟩

theorem waitLoopAux_all_busy (dir : String) (snaps : Nat → List OsProc) :
    ∀ (fuel i : Nat),
      (∀ k, i ≤ k → k < i + fuel → matchingProcs (snaps k) dir ≠ []) →
      waitLoopAux dir snaps i fuel = (i + fuel, i + fuel) := by
  intro fuel
  induction fuel with
  | zero =>
    intro i _
    simp [waitLoopAux]
  | succ n ih =>
    intro i hall
    unfold waitLoopAux
    have h0 : matchingProcs (snaps i) dir ≠ [] := hall i (Nat.le_refl i) (by omega)
    have hc : ¬((matchingProcs (snaps i) dir).isEmpty = true) := by
      simp [List.isEmpty_iff, h0]
    rw [if_neg hc]
    have hrec := ih (i + 1) (fun k hk1 hk2 => hall k (by omega) (by omega))
    rw [hrec]
    have he : i + 1 + n = i + (n + 1) := by omega
    rw [he]

theorem waitLoopAux_first_free (dir : String) (snaps : Nat → List OsProc) :
    ∀ (fuel i k : Nat), i ≤ k → k < i + fuel →
      matchingProcs (snaps k) dir = [] →
      (∀ j, i ≤ j → j < k → matchingProcs (snaps j) dir ≠ []) →
      waitLoopAux dir snaps i fuel = (k + 1, k) := by
  intro fuel
  induction fuel with
  | zero =>
    intro i k h1 h2
    omega
  | succ n ih =>
    intro i k h1 h2 hk hbefore
    unfold waitLoopAux
    by_cases hik : i = k
    · subst hik
      have hc : (matchingProcs (snaps i) dir).isEmpty = true := by
        simp [List.isEmpty_iff, hk]
      rw [if_pos hc]
    · have hi : matchingProcs (snaps i) dir ≠ [] :=
        hbefore i (Nat.le_refl i) (by omega)
      have hc : ¬((matchingProcs (snaps i) dir).isEmpty = true) := by
        simp [List.isEmpty_iff, hi]
      rw [if_neg hc]
      exact ih (i + 1) k (by omega) (by omega) hk
        (fun j hj1 hj2 => hbefore j (by omega) hj2)

/-- C4: for a configured instance, restart discards stop's result, polls the
process table at 500 ms intervals for at most 60 attempts until no process
with a matching cwd remains, then invokes start unconditionally on the
post-stop registries — so when every snapshot (budget included) still
matches, the fresh start fails with the already-running error. -/
theorem restart_polls_then_starts (d : Disk) (stopSnap : List OsProc)
    (snaps : Nat → List OsProc) (spawn : LaunchCmd → Except String Child)
    (st : SupState) (id : String) (inst : InstanceConfig)
    (h : get_instance_by_id d id = Outcome.ok inst) :
    (restart_instance d stopSnap snaps spawn st id).polls ≤ 60
    ∧ ((restart_instance d stopSnap snaps spawn st id).sleepMs =
        500 * (restart_instance d stopSnap snaps spawn st id).polls
      ∨ (restart_instance d stopSnap snaps spawn st id).sleepMs + 500 =
        500 * (restart_instance d stopSnap snaps spawn st id).polls)
    ∧ (restart_instance d stopSnap snaps spawn st id).res =
        (start_instance d
          (snaps (restart_instance d stopSnap snaps spawn st id).polls) spawn
          (stop_instance d stopSnap st id).state id).res
    ∧ ((∀ k, k ≤ 60 → matchingProcs (snaps k) (instanceDir d inst.name) ≠ []) →
        d.dirs.contains (instanceDir d inst.name) = true →
        (restart_instance d stopSnap snaps spawn st id).res =
          Outcome.err (alreadyRunningMsg inst.name))
    ∧ (∀ k, k < 60 →
        matchingProcs (snaps k) (instanceDir d inst.name) = [] →
        (∀ j, j < k → matchingProcs (snaps j) (instanceDir d inst.name) ≠ []) →
        (restart_instance d stopSnap snaps spawn st id).polls = k + 1) := by
  rw [restart_char d stopSnap snaps spawn st id inst h]
  have hspec := waitLoopAux_spec (instanceDir d inst.name) snaps 60 0
  refine ⟨by simpa using hspec.1, ?_, rfl, ?_, ?_⟩
  · rcases hspec.2 with h2 | h2
    · exact Or.inl (by rw [h2])
    · refine Or.inr ?_
      have : 500 * (waitLoopAux (instanceDir d inst.name) snaps 0 60).2 + 500 =
          500 * ((waitLoopAux (instanceDir d inst.name) snaps 0 60).2 + 1) := by
        ring
      rw [this, h2]
  · intro hall hdir
    have hw : waitLoopAux (instanceDir d inst.name) snaps 0 60 = (60, 60) := by
      simpa using waitLoopAux_all_busy (instanceDir d inst.name) snaps 60 0
        (fun k _ hk2 => hall k (by omega))
    rw [hw]
    have := start_blocked_when_running d (snaps 60) spawn
      (stop_instance d stopSnap st id).state id inst h hdir
      (hall 60 (Nat.le_refl 60))
    rw [this]
  · intro k hk hkempty hbefore
    have hw := waitLoopAux_first_free (instanceDir d inst.name) snaps 60 0 k
      (Nat.zero_le k) (by omega) hkempty (fun j _ hj2 => hbefore j hj2)
    rw [hw]

/-- C7: for a configured identifier, kill removes the command-channel
registration unconditionally, sends `Kill` to every process whose cwd
equals the instance directory, and errs with the not-running message iff
nothing matched. -/
theorem kill_removes_channel_and_signals (d : Disk) (procs : List OsProc)
    (st : SupState) (id : String) (inst : InstanceConfig)
    (h : get_instance_by_id d id = Outcome.ok inst) :
    (kill_instance d procs st id).state.stdinMap = removeA st.stdinMap id
    ∧ (kill_instance d procs st id).state.logsMap = st.logsMap
    ∧ (kill_instance d procs st id).signals =
        (matchingProcs procs (instanceDir d inst.name)).map
          (fun p => (p.pid, Sig.kill))
    ∧ ((kill_instance d procs st id).res =
        Outcome.err (notRunningMsg inst.name)
      ↔ matchingProcs procs (instanceDir d inst.name) = [])
    ∧ (matchingProcs procs (instanceDir d inst.name) ≠ [] →
        (kill_instance d procs st id).res = Outcome.ok ()) := by
  unfold kill_instance
  rw [h]
  by_cases hm : matchingProcs procs (instanceDir d inst.name) = []
  · simp [hm]
  · simp [hm, List.isEmpty_iff]

/-- C9: for a configured instance, metrics returns a sample tagged with the
wall-clock string whose cpu and memory are the sums over the processes
whose cwd equals the instance directory; zero matches yields a zero-valued
sample, not an error. -/
theorem metrics_sums_matching (d : Disk) (procs : List OsProc)
    (clock id : String) (inst : InstanceConfig)
    (h : get_instance_by_id d id = Outcome.ok inst) :
    get_instance_metrics d procs clock id =
      Outcome.ok ⟨clock,
        ((matchingProcs procs (instanceDir d inst.name)).map
          OsProc.cpu_usage).sum,
        ((matchingProcs procs (instanceDir d inst.name)).map
          OsProc.memory).sum⟩
    ∧ (matchingProcs procs (instanceDir d inst.name) = [] →
        get_instance_metrics d procs clock id =
          Outcome.ok ⟨clock, 0, 0⟩) := by
  have hcpu := foldl_filter_sum (fun p : OsProc => p.cwd == some (instanceDir d inst.name)) OsProc.cpu_usage procs (0 : Rat)
  have hmem := foldl_filter_sum (fun p : OsProc => p.cwd == some (instanceDir d inst.name)) OsProc.memory procs (0 : Nat)
  constructor
  · unfold get_instance_metrics
    rw [h]
    simp only [hcpu, hmem, matchingProcs, zero_add]
  · intro hm
    unfold get_instance_metrics
    rw [h]
    simp only [hcpu, hmem]
    rw [show procs.filter (fun p => p.cwd == some (instanceDir d inst.name)) = matchingProcs procs (instanceDir d inst.name) from rfl, hm]
    simp

theorem start_ok_char (d : Disk) (procs : List OsProc)
    (spawn : LaunchCmd → Except String Child) (st : SupState) (id : String)
    (inst : InstanceConfig)
    (h : get_instance_by_id d id = Outcome.ok inst)
    (hok : (start_instance d procs spawn st id).res = Outcome.ok ()) :
    (start_instance d procs spawn st id).spawned =
      some ⟨inst.java.java_path.getD "java", instanceDir d inst.name,
        buildArgs inst.java⟩
    ∧ (start_instance d procs spawn st id).state.logsMap =
        insertA st.logsMap id [] := by
  unfold start_instance at hok ⊢
  rw [h] at hok ⊢
  by_cases h1 : instanceDir d inst.name ∈ d.dirs
  case neg => simp [h1] at hok
  by_cases h2 : matchingProcs procs (instanceDir d inst.name) = []
  case neg => simp [h1, h2] at hok
  cases hsp : spawn ⟨inst.java.java_path.getD "java",
      instanceDir d inst.name, buildArgs inst.java⟩ with
  | error e => simp [h1, h2, hsp] at hok
  | ok child =>
    cases hso : child.stdout with
    | none => simp [h1, h2, hsp, hso] at hok
    | some outS =>
      cases hse : child.stderr with
      | none => simp [h1, h2, hsp, hso, hse] at hok
      | some errS =>
        cases hsi : child.stdin with
        | none => simp [h1, h2, hsp, hso, hse, hsi]
        | some c => simp [h1, h2, hsp, hso, hse, hsi]

/-- C6: for a configured instance started successfully whose memory settings
are nonempty, the worker is spawned with program the configured java path or
`java` when unset, working directory the instance directory, and the exact
argument sequence `-Xms<min> -Xmx<max> <additional args> -jar server.jar
nogui`. -/
theorem start_launch_command (d : Disk) (procs : List OsProc)
    (spawn : LaunchCmd → Except String Child) (st : SupState) (id : String)
    (inst : InstanceConfig)
    (h : get_instance_by_id d id = Outcome.ok inst)
    (hok : (start_instance d procs spawn st id).res = Outcome.ok ())
    (hmin : inst.java.min_memory ≠ "")
    (hmax : inst.java.max_memory ≠ "") :
    (start_instance d procs spawn st id).spawned =
      some ⟨inst.java.java_path.getD "java", instanceDir d inst.name,
        ["-Xms" ++ inst.java.min_memory, "-Xmx" ++ inst.java.max_memory]
        ++ inst.java.additional_args ++ ["-jar", "server.jar", "nogui"]⟩ := by
  have hc := (start_ok_char d procs spawn st id inst h hok).1
  rw [hc]
  have hargs : buildArgs inst.java =
      ["-Xms" ++ inst.java.min_memory, "-Xmx" ++ inst.java.max_memory]
      ++ inst.java.additional_args ++ ["-jar", "server.jar", "nogui"] := by
    unfold buildArgs
    have h1 : inst.java.min_memory.isEmpty = false := by
      by_contra hcon
      rw [Bool.not_eq_false] at hcon
      exact hmin ((String.isEmpty_iff inst.java.min_memory).mp hcon)
    have h2 : inst.java.max_memory.isEmpty = false := by
      by_contra hcon
      rw [Bool.not_eq_false] at hcon
      exact hmax ((String.isEmpty_iff inst.java.max_memory).mp hcon)
    simp [h1, h2]
  rw [hargs]

/-- C5 counterexample: an instance with buffered lines `["old"]` is
restarted successfully; the restart (through the start it performs)
replaces the log buffer with the empty buffer, so restart does mutate the
log buffer of that identifier. -/
theorem restart_resets_log_buffer :
    lookupA (SupState.mk [] [("i", ["old"])]).logsMap "i" = some ["old"]
    ∧ (restart_instance
        ⟨"/d", [⟨"i", "n", "vanilla", "1.21", none, none,
          ⟨"2G", "4G", none, []⟩, ⟨"t", none, 0⟩⟩], ["/d/instances/n"]⟩
        [] (fun _ => [])
        (fun _ => Except.ok ⟨some ⟨true, true⟩, some [], some []⟩)
        ⟨[], [("i", ["old"])]⟩ "i").res = Outcome.ok ()
    ∧ lookupA (restart_instance
        ⟨"/d", [⟨"i", "n", "vanilla", "1.21", none, none,
          ⟨"2G", "4G", none, []⟩, ⟨"t", none, 0⟩⟩], ["/d/instances/n"]⟩
        [] (fun _ => [])
        (fun _ => Except.ok ⟨some ⟨true, true⟩, some [], some []⟩)
        ⟨[], [("i", ["old"])]⟩ "i").state.logsMap "i" = some []
    ∧ (["old"] : List String) ≠ [] := by
  refine ⟨rfl, rfl, rfl, by decide⟩

/-- C5 amended: the log buffer is created empty exactly once per start call
and stop and kill never mutate any log buffer; restart, however, mutates
the buffer exactly through the start call it performs (its final registries
are those of that inner start), which re-creates the buffer empty. -/
theorem logbuffer_frame (d : Disk) (procs stopSnap : List OsProc)
    (snaps : Nat → List OsProc) (spawn : LaunchCmd → Except String Child)
    (st : SupState) (id : String) (inst : InstanceConfig)
    (h : get_instance_by_id d id = Outcome.ok inst) :
    (stop_instance d procs st id).state.logsMap = st.logsMap
    ∧ (kill_instance d procs st id).state.logsMap = st.logsMap
    ∧ ((start_instance d procs spawn st id).res = Outcome.ok () →
        (start_instance d procs spawn st id).state.logsMap =
          insertA st.logsMap id [])
    ∧ (restart_instance d stopSnap snaps spawn st id).state =
        (start_instance d
          (snaps (waitLoopAux (instanceDir d inst.name) snaps 0 60).1) spawn
          (stop_instance d stopSnap st id).state id).state := by
  refine ⟨?_, ?_, ?_, ?_⟩
  · unfold stop_instance
    rw [h]
    by_cases hs : sentStop st id
    · simp [hs]
    · by_cases hm : (matchingProcs procs (instanceDir d inst.name)).isEmpty = true
      · simp [hs, hm]
      · simp [hs, hm]
  · unfold kill_instance
    rw [h]
    by_cases hm : (matchingProcs procs (instanceDir d inst.name)).isEmpty = true
    · simp [hm]
    · simp [hm]
  · intro hok
    exact (start_ok_char d procs spawn st id inst h hok).2
  · rw [restart_char d stopSnap snaps spawn st id inst h]

theorem relayRace_char (id : String) :
    ∀ (sched : List Bool) (logs : List (String × List String))
      (outS errS : List (Except String String)) (cur : List String),
      lookupA logs id = some cur →
      ∃ merged n m,
        lookupA (relayRace id sched logs outS errS) id = some (cur ++ merged)
        ∧ Interleaving ((okLines outS).take n) ((okLines errS).take m)
            merged := by
  intro sched
  induction sched with
  | nil =>
    intro logs outS errS cur h
    exact ⟨[], 0, 0, by simpa using h, Interleaving.nil⟩
  | cons b s ih =>
    cases b with
    | true =>
      intro logs outS errS cur h
      cases outS with
      | nil => exact ih logs [] errS cur h
      | cons x xs =>
        cases x with
        | error e =>
          obtain ⟨M, n, m, h1, h2⟩ := ih logs xs errS cur h
          exact ⟨M, n, m, h1, h2⟩
        | ok l =>
          have hstep : (relayStep id logs (Except.ok l)).1 =
              insertA logs id (cur ++ [l]) := by
            simp [relayStep, h]
          obtain ⟨M, n, m, h1, h2⟩ := ih (insertA logs id (cur ++ [l])) xs
            errS (cur ++ [l]) (lookupA_insertA_self logs id (cur ++ [l]))
          refine ⟨l :: M, n + 1, m, ?_, Interleaving.left h2⟩
          show lookupA
            (relayRace id s (relayStep id logs (Except.ok l)).1 xs errS) id =
            some (cur ++ (l :: M))
          rw [hstep, h1]
          simp
    | false =>
      intro logs outS errS cur h
      cases errS with
      | nil => exact ih logs outS [] cur h
      | cons y ys =>
        cases y with
        | error e =>
          obtain ⟨M, n, m, h1, h2⟩ := ih logs outS ys cur h
          exact ⟨M, n, m, h1, h2⟩
        | ok l =>
          have hstep : (relayStep id logs (Except.ok l)).1 =
              insertA logs id (cur ++ [l]) := by
            simp [relayStep, h]
          obtain ⟨M, n, m, h1, h2⟩ := ih (insertA logs id (cur ++ [l])) outS
            ys (cur ++ [l]) (lookupA_insertA_self logs id (cur ++ [l]))
          refine ⟨l :: M, n, m + 1, ?_, Interleaving.right h2⟩
          show lookupA
            (relayRace id s (relayStep id logs (Except.ok l)).1 outS ys) id =
            some (cur ++ (l :: M))
          rw [hstep, h1]
          simp

/-- C8: each relay iteration on a decoded line first appends the line to the
instance's log buffer and then publishes it as a per-line event; under any
interleaving of the two relay threads, `get_instance_logs` returns the
initial buffer extended by an order-preserving interleaving of a prefix of
the stdout lines with a prefix of the stderr lines — no duplication or drop
within either stream's sub-sequence. -/
theorem relay_log_prefix (id : String) (st : SupState) (cur : List String)
    (sched : List Bool) (outS errS : List (Except String String))
    (h : lookupA st.logsMap id = some cur) :
    (∀ (logs : List (String × List String)) (l : String)
        (bcur : List String), lookupA logs id = some bcur →
        relayStep id logs (Except.ok l) =
          (insertA logs id (bcur ++ [l]),
            [RelayAct.appended l, RelayAct.emitted l]))
    ∧ ∃ merged n m,
        get_instance_logs
            ⟨st.stdinMap, relayRace id sched st.logsMap outS errS⟩ id =
          Outcome.ok (cur ++ merged)
        ∧ Interleaving ((okLines outS).take n) ((okLines errS).take m)
            merged := by
  constructor
  · intro logs l bcur hb
    unfold relayStep
    rw [hb]
  · obtain ⟨M, n, m, h1, h2⟩ := relayRace_char id sched st.logsMap outS errS cur h
    exact ⟨M, n, m, by simp [get_instance_logs, h1], h2⟩

/-- C5 witness: the amended claim instantiated on a one-instance world. -/
theorem logbuffer_frame_witness :
    get_instance_by_id
      ⟨"/d", [⟨"i", "n", "vanilla", "1.21", none, none,
        ⟨"2G", "4G", none, []⟩, ⟨"t", none, 0⟩⟩], ["/d/instances/n"]⟩ "i" =
      Outcome.ok ⟨"i", "n", "vanilla", "1.21", none, none,
        ⟨"2G", "4G", none, []⟩, ⟨"t", none, 0⟩⟩
    ∧ ((stop_instance
        ⟨"/d", [⟨"i", "n", "vanilla", "1.21", none, none,
          ⟨"2G", "4G", none, []⟩, ⟨"t", none, 0⟩⟩], ["/d/instances/n"]⟩
        [] ⟨[], [("i", ["old"])]⟩ "i").state.logsMap = [("i", ["old"])]
      ∧ (kill_instance
        ⟨"/d", [⟨"i", "n", "vanilla", "1.21", none, none,
          ⟨"2G", "4G", none, []⟩, ⟨"t", none, 0⟩⟩], ["/d/instances/n"]⟩
        [] ⟨[], [("i", ["old"])]⟩ "i").state.logsMap = [("i", ["old"])]
      ∧ ((start_instance
        ⟨"/d", [⟨"i", "n", "vanilla", "1.21", none, none,
          ⟨"2G", "4G", none, []⟩, ⟨"t", none, 0⟩⟩], ["/d/instances/n"]⟩
        [] (fun _ => Except.ok ⟨some ⟨true, true⟩, some [], some []⟩)
        ⟨[], [("i", ["old"])]⟩ "i").res = Outcome.ok () →
        (start_instance
        ⟨"/d", [⟨"i", "n", "vanilla", "1.21", none, none,
          ⟨"2G", "4G", none, []⟩, ⟨"t", none, 0⟩⟩], ["/d/instances/n"]⟩
        [] (fun _ => Except.ok ⟨some ⟨true, true⟩, some [], some []⟩)
        ⟨[], [("i", ["old"])]⟩ "i").state.logsMap =
          insertA [("i", ["old"])] "i" [])
      ∧ (restart_instance
        ⟨"/d", [⟨"i", "n", "vanilla", "1.21", none, none,
          ⟨"2G", "4G", none, []⟩, ⟨"t", none, 0⟩⟩], ["/d/instances/n"]⟩
        [] (fun _ => [])
        (fun _ => Except.ok ⟨some ⟨true, true⟩, some [], some []⟩)
        ⟨[], [("i", ["old"])]⟩ "i").state =
        (start_instance
          ⟨"/d", [⟨"i", "n", "vanilla", "1.21", none, none,
            ⟨"2G", "4G", none, []⟩, ⟨"t", none, 0⟩⟩], ["/d/instances/n"]⟩
          ((fun _ => ([] : List OsProc))
            (waitLoopAux
              (instanceDir
                ⟨"/d", [⟨"i", "n", "vanilla", "1.21", none, none,
                  ⟨"2G", "4G", none, []⟩, ⟨"t", none, 0⟩⟩],
                  ["/d/instances/n"]⟩ "n")
              (fun _ => []) 0 60).1)
          (fun _ => Except.ok ⟨some ⟨true, true⟩, some [], some []⟩)
          (stop_instance
            ⟨"/d", [⟨"i", "n", "vanilla", "1.21", none, none,
              ⟨"2G", "4G", none, []⟩, ⟨"t", none, 0⟩⟩], ["/d/instances/n"]⟩
            [] ⟨[], [("i", ["old"])]⟩ "i").state "i").state) :=
  ⟨rfl, logbuffer_frame
    ⟨"/d", [⟨"i", "n", "vanilla", "1.21", none, none,
      ⟨"2G", "4G", none, []⟩, ⟨"t", none, 0⟩⟩], ["/d/instances/n"]⟩
    [] [] (fun _ => [])
    (fun _ => Except.ok ⟨some ⟨true, true⟩, some [], some []⟩)
    ⟨[], [("i", ["old"])]⟩ "i"
    ⟨"i", "n", "vanilla", "1.21", none, none,
      ⟨"2G", "4G", none, []⟩, ⟨"t", none, 0⟩⟩ rfl⟩

/-- C2 witness: stopping a running instance with no registered command
channel sends a term signal to the matching process. -/
theorem stop_graceful_then_signal_witness :
    get_instance_by_id
      ⟨"/d", [⟨"i", "n", "vanilla", "1.21", none, none,
        ⟨"2G", "4G", none, []⟩, ⟨"t", none, 0⟩⟩], ["/d/instances/n"]⟩ "i" =
      Outcome.ok ⟨"i", "n", "vanilla", "1.21", none, none,
        ⟨"2G", "4G", none, []⟩, ⟨"t", none, 0⟩⟩
    ∧ ((stop_instance
        ⟨"/d", [⟨"i", "n", "vanilla", "1.21", none, none,
          ⟨"2G", "4G", none, []⟩, ⟨"t", none, 0⟩⟩], ["/d/instances/n"]⟩
        [⟨7, some "/d/instances/n", 2, 100⟩]
        ⟨[], []⟩ "i").state.stdinMap = []
      ∧ (stop_instance
        ⟨"/d", [⟨"i", "n", "vanilla", "1.21", none, none,
          ⟨"2G", "4G", none, []⟩, ⟨"t", none, 0⟩⟩], ["/d/instances/n"]⟩
        [⟨7, some "/d/instances/n", 2, 100⟩]
        ⟨[], []⟩ "i").state.logsMap = []
      ∧ (sentStop ⟨[], []⟩ "i" = true →
          (stop_instance
            ⟨"/d", [⟨"i", "n", "vanilla", "1.21", none, none,
              ⟨"2G", "4G", none, []⟩, ⟨"t", none, 0⟩⟩], ["/d/instances/n"]⟩
            [⟨7, some "/d/instances/n", 2, 100⟩]
            ⟨[], []⟩ "i").res = Outcome.ok ()
          ∧ (stop_instance
            ⟨"/d", [⟨"i", "n", "vanilla", "1.21", none, none,
              ⟨"2G", "4G", none, []⟩, ⟨"t", none, 0⟩⟩], ["/d/instances/n"]⟩
            [⟨7, some "/d/instances/n", 2, 100⟩]
            ⟨[], []⟩ "i").signals = [])
      ∧ (sentStop ⟨[], []⟩ "i" = false →
          (stop_instance
            ⟨"/d", [⟨"i", "n", "vanilla", "1.21", none, none,
              ⟨"2G", "4G", none, []⟩, ⟨"t", none, 0⟩⟩], ["/d/instances/n"]⟩
            [⟨7, some "/d/instances/n", 2, 100⟩]
            ⟨[], []⟩ "i").signals = [(7, Sig.term)]
          ∧ ((stop_instance
            ⟨"/d", [⟨"i", "n", "vanilla", "1.21", none, none,
              ⟨"2G", "4G", none, []⟩, ⟨"t", none, 0⟩⟩], ["/d/instances/n"]⟩
            [⟨7, some "/d/instances/n", 2, 100⟩]
            ⟨[], []⟩ "i").res = Outcome.err (notRunningMsg "n")
            ↔ ([⟨7, some "/d/instances/n", 2, 100⟩] : List OsProc) = [])
          ∧ (([⟨7, some "/d/instances/n", 2, 100⟩] : List OsProc) ≠ [] →
              (stop_instance
                ⟨"/d", [⟨"i", "n", "vanilla", "1.21", none, none,
                  ⟨"2G", "4G", none, []⟩, ⟨"t", none, 0⟩⟩],
                  ["/d/instances/n"]⟩
                [⟨7, some "/d/instances/n", 2, 100⟩]
                ⟨[], []⟩ "i").res = Outcome.ok ()))) :=
  ⟨rfl, stop_graceful_then_signal
    ⟨"/d", [⟨"i", "n", "vanilla", "1.21", none, none,
      ⟨"2G", "4G", none, []⟩, ⟨"t", none, 0⟩⟩], ["/d/instances/n"]⟩
    [⟨7, some "/d/instances/n", 2, 100⟩] ⟨[], []⟩ "i"
    ⟨"i", "n", "vanilla", "1.21", none, none,
      ⟨"2G", "4G", none, []⟩, ⟨"t", none, 0⟩⟩ rfl⟩

/-- C3 witness: starting while a process already occupies the instance
directory yields the already-running error and no spawn. -/
theorem start_already_running_witness :
    get_instance_by_id
      ⟨"/d", [⟨"i", "n", "vanilla", "1.21", none, none,
        ⟨"2G", "4G", none, []⟩, ⟨"t", none, 0⟩⟩], ["/d/instances/n"]⟩ "i" =
      Outcome.ok ⟨"i", "n", "vanilla", "1.21", none, none,
        ⟨"2G", "4G", none, []⟩, ⟨"t", none, 0⟩⟩
    ∧ (⟨"/d", [⟨"i", "n", "vanilla", "1.21", none, none,
        ⟨"2G", "4G", none, []⟩, ⟨"t", none, 0⟩⟩],
        ["/d/instances/n"]⟩ : Disk).dirs.contains
        (instanceDir
          ⟨"/d", [⟨"i", "n", "vanilla", "1.21", none, none,
            ⟨"2G", "4G", none, []⟩, ⟨"t", none, 0⟩⟩], ["/d/instances/n"]⟩
          "n") = true
    ∧ matchingProcs [⟨7, some "/d/instances/n", 2, 100⟩]
        (instanceDir
          ⟨"/d", [⟨"i", "n", "vanilla", "1.21", none, none,
            ⟨"2G", "4G", none, []⟩, ⟨"t", none, 0⟩⟩], ["/d/instances/n"]⟩
          "n") ≠ []
    ∧ start_instance
        ⟨"/d", [⟨"i", "n", "vanilla", "1.21", none, none,
          ⟨"2G", "4G", none, []⟩, ⟨"t", none, 0⟩⟩], ["/d/instances/n"]⟩
        [⟨7, some "/d/instances/n", 2, 100⟩]
        (fun _ => Except.error "e") ⟨[], []⟩ "i" =
        ⟨Outcome.err (alreadyRunningMsg "n"), ⟨[], []⟩, none, []⟩ :=
  ⟨rfl, rfl, by decide,
    start_already_running
      ⟨"/d", [⟨"i", "n", "vanilla", "1.21", none, none,
        ⟨"2G", "4G", none, []⟩, ⟨"t", none, 0⟩⟩], ["/d/instances/n"]⟩
      [⟨7, some "/d/instances/n", 2, 100⟩]
      (fun _ => Except.error "e") ⟨[], []⟩ "i"
      ⟨"i", "n", "vanilla", "1.21", none, none,
        ⟨"2G", "4G", none, []⟩, ⟨"t", none, 0⟩⟩ rfl rfl (by decide)⟩

/-- C7 witness: killing a non-running instance still removes the stale
command channel and reports the not-running error. -/
theorem kill_removes_channel_and_signals_witness :
    get_instance_by_id
      ⟨"/d", [⟨"i", "n", "vanilla", "1.21", none, none,
        ⟨"2G", "4G", none, []⟩, ⟨"t", none, 0⟩⟩], ["/d/instances/n"]⟩ "i" =
      Outcome.ok ⟨"i", "n", "vanilla", "1.21", none, none,
        ⟨"2G", "4G", none, []⟩, ⟨"t", none, 0⟩⟩
    ∧ ((kill_instance
        ⟨"/d", [⟨"i", "n", "vanilla", "1.21", none, none,
          ⟨"2G", "4G", none, []⟩, ⟨"t", none, 0⟩⟩], ["/d/instances/n"]⟩
        [] ⟨[("i", ⟨true, true⟩)], []⟩ "i").state.stdinMap = []
      ∧ (kill_instance
        ⟨"/d", [⟨"i", "n", "vanilla", "1.21", none, none,
          ⟨"2G", "4G", none, []⟩, ⟨"t", none, 0⟩⟩], ["/d/instances/n"]⟩
        [] ⟨[("i", ⟨true, true⟩)], []⟩ "i").state.logsMap = []
      ∧ (kill_instance
        ⟨"/d", [⟨"i", "n", "vanilla", "1.21", none, none,
          ⟨"2G", "4G", none, []⟩, ⟨"t", none, 0⟩⟩], ["/d/instances/n"]⟩
        [] ⟨[("i", ⟨true, true⟩)], []⟩ "i").signals = []
      ∧ ((kill_instance
        ⟨"/d", [⟨"i", "n", "vanilla", "1.21", none, none,
          ⟨"2G", "4G", none, []⟩, ⟨"t", none, 0⟩⟩], ["/d/instances/n"]⟩
        [] ⟨[("i", ⟨true, true⟩)], []⟩ "i").res =
          Outcome.err (notRunningMsg "n")
        ↔ ([] : List OsProc) = [])
      ∧ (([] : List OsProc) ≠ [] →
          (kill_instance
            ⟨"/d", [⟨"i", "n", "vanilla", "1.21", none, none,
              ⟨"2G", "4G", none, []⟩, ⟨"t", none, 0⟩⟩], ["/d/instances/n"]⟩
            [] ⟨[("i", ⟨true, true⟩)], []⟩ "i").res = Outcome.ok ())) :=
  ⟨rfl, kill_removes_channel_and_signals
    ⟨"/d", [⟨"i", "n", "vanilla", "1.21", none, none,
      ⟨"2G", "4G", none, []⟩, ⟨"t", none, 0⟩⟩], ["/d/instances/n"]⟩
    [] ⟨[("i", ⟨true, true⟩)], []⟩ "i"
    ⟨"i", "n", "vanilla", "1.21", none, none,
      ⟨"2G", "4G", none, []⟩, ⟨"t", none, 0⟩⟩ rfl⟩

/-- C9 witness: metrics over one matching and one non-matching process. -/
theorem metrics_sums_matching_witness :
    get_instance_by_id
      ⟨"/d", [⟨"i", "n", "vanilla", "1.21", none, none,
        ⟨"2G", "4G", none, []⟩, ⟨"t", none, 0⟩⟩], ["/d/instances/n"]⟩ "i" =
      Outcome.ok ⟨"i", "n", "vanilla", "1.21", none, none,
        ⟨"2G", "4G", none, []⟩, ⟨"t", none, 0⟩⟩
    ∧ (get_instance_metrics
        ⟨"/d", [⟨"i", "n", "vanilla", "1.21", none, none,
          ⟨"2G", "4G", none, []⟩, ⟨"t", none, 0⟩⟩], ["/d/instances/n"]⟩
        [⟨7, some "/d/instances/n", 2, 100⟩, ⟨8, some "/x", 1, 7⟩]
        "12:00:00" "i" =
        Outcome.ok ⟨"12:00:00",
          ((matchingProcs
            [⟨7, some "/d/instances/n", 2, 100⟩, ⟨8, some "/x", 1, 7⟩]
            (instanceDir
              ⟨"/d", [⟨"i", "n", "vanilla", "1.21", none, none,
                ⟨"2G", "4G", none, []⟩, ⟨"t", none, 0⟩⟩],
                ["/d/instances/n"]⟩ "n")).map OsProc.cpu_usage).sum,
          ((matchingProcs
            [⟨7, some "/d/instances/n", 2, 100⟩, ⟨8, some "/x", 1, 7⟩]
            (instanceDir
              ⟨"/d", [⟨"i", "n", "vanilla", "1.21", none, none,
                ⟨"2G", "4G", none, []⟩, ⟨"t", none, 0⟩⟩],
                ["/d/instances/n"]⟩ "n")).map OsProc.memory).sum⟩
      ∧ (matchingProcs
          [⟨7, some "/d/instances/n", 2, 100⟩, ⟨8, some "/x", 1, 7⟩]
          (instanceDir
            ⟨"/d", [⟨"i", "n", "vanilla", "1.21", none, none,
              ⟨"2G", "4G", none, []⟩, ⟨"t", none, 0⟩⟩],
              ["/d/instances/n"]⟩ "n") = [] →
          get_instance_metrics
            ⟨"/d", [⟨"i", "n", "vanilla", "1.21", none, none,
              ⟨"2G", "4G", none, []⟩, ⟨"t", none, 0⟩⟩], ["/d/instances/n"]⟩
            [⟨7, some "/d/instances/n", 2, 100⟩, ⟨8, some "/x", 1, 7⟩]
            "12:00:00" "i" = Outcome.ok ⟨"12:00:00", 0, 0⟩)) :=
  ⟨rfl, metrics_sums_matching
    ⟨"/d", [⟨"i", "n", "vanilla", "1.21", none, none,
      ⟨"2G", "4G", none, []⟩, ⟨"t", none, 0⟩⟩], ["/d/instances/n"]⟩
    [⟨7, some "/d/instances/n", 2, 100⟩, ⟨8, some "/x", 1, 7⟩]
    "12:00:00" "i"
    ⟨"i", "n", "vanilla", "1.21", none, none,
      ⟨"2G", "4G", none, []⟩, ⟨"t", none, 0⟩⟩ rfl⟩

/-- C4 witness: restarting an instance with an always-empty process table
polls once and then starts. -/
theorem restart_polls_then_starts_witness :
    get_instance_by_id
      ⟨"/d", [⟨"i", "n", "vanilla", "1.21", none, none,
        ⟨"2G", "4G", none, []⟩, ⟨"t", none, 0⟩⟩], ["/d/instances/n"]⟩ "i" =
      Outcome.ok ⟨"i", "n", "vanilla", "1.21", none, none,
        ⟨"2G", "4G", none, []⟩, ⟨"t", none, 0⟩⟩
    ∧ ((restart_instance
        ⟨"/d", [⟨"i", "n", "vanilla", "1.21", none, none,
          ⟨"2G", "4G", none, []⟩, ⟨"t", none, 0⟩⟩], ["/d/instances/n"]⟩
        [] (fun _ => [])
        (fun _ => Except.ok ⟨some ⟨true, true⟩, some [], some []⟩)
        ⟨[], []⟩ "i").polls ≤ 60
      ∧ ((restart_instance
          ⟨"/d", [⟨"i", "n", "vanilla", "1.21", none, none,
            ⟨"2G", "4G", none, []⟩, ⟨"t", none, 0⟩⟩], ["/d/instances/n"]⟩
          [] (fun _ => [])
          (fun _ => Except.ok ⟨some ⟨true, true⟩, some [], some []⟩)
          ⟨[], []⟩ "i").sleepMs =
          500 * (restart_instance
            ⟨"/d", [⟨"i", "n", "vanilla", "1.21", none, none,
              ⟨"2G", "4G", none, []⟩, ⟨"t", none, 0⟩⟩], ["/d/instances/n"]⟩
            [] (fun _ => [])
            (fun _ => Except.ok ⟨some ⟨true, true⟩, some [], some []⟩)
            ⟨[], []⟩ "i").polls
        ∨ (restart_instance
            ⟨"/d", [⟨"i", "n", "vanilla", "1.21", none, none,
              ⟨"2G", "4G", none, []⟩, ⟨"t", none, 0⟩⟩], ["/d/instances/n"]⟩
            [] (fun _ => [])
            (fun _ => Except.ok ⟨some ⟨true, true⟩, some [], some []⟩)
            ⟨[], []⟩ "i").sleepMs + 500 =
          500 * (restart_instance
            ⟨"/d", [⟨"i", "n", "vanilla", "1.21", none, none,
              ⟨"2G", "4G", none, []⟩, ⟨"t", none, 0⟩⟩], ["/d/instances/n"]⟩
            [] (fun _ => [])
            (fun _ => Except.ok ⟨some ⟨true, true⟩, some [], some []⟩)
            ⟨[], []⟩ "i").polls)
      ∧ (restart_instance
          ⟨"/d", [⟨"i", "n", "vanilla", "1.21", none, none,
            ⟨"2G", "4G", none, []⟩, ⟨"t", none, 0⟩⟩], ["/d/instances/n"]⟩
          [] (fun _ => [])
          (fun _ => Except.ok ⟨some ⟨true, true⟩, some [], some []⟩)
          ⟨[], []⟩ "i").res =
        (start_instance
          ⟨"/d", [⟨"i", "n", "vanilla", "1.21", none, none,
            ⟨"2G", "4G", none, []⟩, ⟨"t", none, 0⟩⟩], ["/d/instances/n"]⟩
          []
          (fun _ => Except.ok ⟨some ⟨true, true⟩, some [], some []⟩)
          (stop_instance
            ⟨"/d", [⟨"i", "n", "vanilla", "1.21", none, none,
              ⟨"2G", "4G", none, []⟩, ⟨"t", none, 0⟩⟩], ["/d/instances/n"]⟩
            [] ⟨[], []⟩ "i").state "i").res
      ∧ ((∀ k, k ≤ 60 →
            matchingProcs []
              (instanceDir
                ⟨"/d", [⟨"i", "n", "vanilla", "1.21", none, none,
                  ⟨"2G", "4G", none, []⟩, ⟨"t", none, 0⟩⟩],
                  ["/d/instances/n"]⟩ "n") ≠ []) →
          (⟨"/d", [⟨"i", "n", "vanilla", "1.21", none, none,
            ⟨"2G", "4G", none, []⟩, ⟨"t", none, 0⟩⟩],
            ["/d/instances/n"]⟩ : Disk).dirs.contains
            (instanceDir
              ⟨"/d", [⟨"i", "n", "vanilla", "1.21", none, none,
                ⟨"2G", "4G", none, []⟩, ⟨"t", none, 0⟩⟩],
                ["/d/instances/n"]⟩ "n") = true →
          (restart_instance
            ⟨"/d", [⟨"i", "n", "vanilla", "1.21", none, none,
              ⟨"2G", "4G", none, []⟩, ⟨"t", none, 0⟩⟩], ["/d/instances/n"]⟩
            [] (fun _ => [])
            (fun _ => Except.ok ⟨some ⟨true, true⟩, some [], some []⟩)
            ⟨[], []⟩ "i").res = Outcome.err (alreadyRunningMsg "n"))
      ∧ (∀ k, k < 60 →
          matchingProcs []
            (instanceDir
              ⟨"/d", [⟨"i", "n", "vanilla", "1.21", none, none,
                ⟨"2G", "4G", none, []⟩, ⟨"t", none, 0⟩⟩],
                ["/d/instances/n"]⟩ "n") = [] →
          (∀ j, j < k →
            matchingProcs []
              (instanceDir
                ⟨"/d", [⟨"i", "n", "vanilla", "1.21", none, none,
                  ⟨"2G", "4G", none, []⟩, ⟨"t", none, 0⟩⟩],
                  ["/d/instances/n"]⟩ "n") ≠ []) →
          (restart_instance
            ⟨"/d", [⟨"i", "n", "vanilla", "1.21", none, none,
              ⟨"2G", "4G", none, []⟩, ⟨"t", none, 0⟩⟩], ["/d/instances/n"]⟩
            [] (fun _ => [])
            (fun _ => Except.ok ⟨some ⟨true, true⟩, some [], some []⟩)
            ⟨[], []⟩ "i").polls = k + 1)) :=
  ⟨rfl, restart_polls_then_starts
    ⟨"/d", [⟨"i", "n", "vanilla", "1.21", none, none,
      ⟨"2G", "4G", none, []⟩, ⟨"t", none, 0⟩⟩], ["/d/instances/n"]⟩
    [] (fun _ => [])
    (fun _ => Except.ok ⟨some ⟨true, true⟩, some [], some []⟩)
    ⟨[], []⟩ "i"
    ⟨"i", "n", "vanilla", "1.21", none, none,
      ⟨"2G", "4G", none, []⟩, ⟨"t", none, 0⟩⟩ rfl⟩

/-- C6 witness: the scenario of the claim — parameters `min=2G`, `max=4G`,
no extras — launches `java` in the instance directory with exactly
`-Xms2G -Xmx4G -jar server.jar nogui`. -/
theorem start_launch_command_witness :
    get_instance_by_id
      ⟨"/d", [⟨"i", "n", "vanilla", "1.21", none, none,
        ⟨"2G", "4G", none, []⟩, ⟨"t", none, 0⟩⟩], ["/d/instances/n"]⟩ "i" =
      Outcome.ok ⟨"i", "n", "vanilla", "1.21", none, none,
        ⟨"2G", "4G", none, []⟩, ⟨"t", none, 0⟩⟩
    ∧ (start_instance
        ⟨"/d", [⟨"i", "n", "vanilla", "1.21", none, none,
          ⟨"2G", "4G", none, []⟩, ⟨"t", none, 0⟩⟩], ["/d/instances/n"]⟩
        [] (fun _ => Except.ok ⟨some ⟨true, true⟩, some [], some []⟩)
        ⟨[], []⟩ "i").res = Outcome.ok ()
    ∧ ("2G" : String) ≠ ""
    ∧ ("4G" : String) ≠ ""
    ∧ (start_instance
        ⟨"/d", [⟨"i", "n", "vanilla", "1.21", none, none,
          ⟨"2G", "4G", none, []⟩, ⟨"t", none, 0⟩⟩], ["/d/instances/n"]⟩
        [] (fun _ => Except.ok ⟨some ⟨true, true⟩, some [], some []⟩)
        ⟨[], []⟩ "i").spawned =
        some ⟨"java", "/d/instances/n",
          ["-Xms2G", "-Xmx4G", "-jar", "server.jar", "nogui"]⟩ :=
  ⟨rfl, rfl, by decide, by decide,
    start_launch_command
      ⟨"/d", [⟨"i", "n", "vanilla", "1.21", none, none,
        ⟨"2G", "4G", none, []⟩, ⟨"t", none, 0⟩⟩], ["/d/instances/n"]⟩
      [] (fun _ => Except.ok ⟨some ⟨true, true⟩, some [], some []⟩)
      ⟨[], []⟩ "i"
      ⟨"i", "n", "vanilla", "1.21", none, none,
        ⟨"2G", "4G", none, []⟩, ⟨"t", none, 0⟩⟩
      rfl rfl (by decide) (by decide)⟩

/-- C8 witness: both relays delivering one line each, stdout scheduled
first, extend an initially empty buffer read back by `get_instance_logs`. -/
theorem relay_log_prefix_witness :
    lookupA (SupState.mk [] [("i", [])]).logsMap "i" = some []
    ∧ ((∀ (logs : List (String × List String)) (l : String)
          (bcur : List String), lookupA logs "i" = some bcur →
          relayStep "i" logs (Except.ok l) =
            (insertA logs "i" (bcur ++ [l]),
              [RelayAct.appended l, RelayAct.emitted l]))
      ∧ ∃ merged n m,
          get_instance_logs
              ⟨[], relayRace "i" [true, false] [("i", [])]
                [Except.ok "a"] [Except.ok "b"]⟩ "i" =
            Outcome.ok ([] ++ merged)
          ∧ Interleaving ((okLines [Except.ok "a"]).take n)
              ((okLines [Except.ok "b"]).take m) merged) :=
  ⟨rfl, relay_log_prefix "i" ⟨[], [("i", [])]⟩ [] [true, false]
    [Except.ok "a"] [Except.ok "b"] rfl⟩

end Nuko
